import Mathlib

/-!
Shallow embedding of the scrapscript-lsp tree-driven analysis engine
(`server/src/validator.ts` revisions and the consolidated enhanced server
module).  The external tree-sitter parser is modelled by its output
contract: a concrete syntax tree of nodes carrying a type tag, source
text, a named flag, an error flag and a row/column span.  A call to
`parse(text)` either throws (modelled as `Except.error` carrying the
stringified error) or returns a root node.  JavaScript string operations
(`includes`, `trim`, `startsWith`, `parseInt`, `split`) are modelled by
explicit functions over the character list of the string.
-/

/-- Zero-based (row, column) editor position, as produced by tree-sitter
`startPosition` / `endPosition`. -/
structure Pos where
  row : Nat
  col : Nat
deriving DecidableEq, Repr

/-- Ordered pair of positions; `stop` stands for the source field `end`,
which is a reserved word in Lean. -/
structure SrcRange where
  start : Pos
  stop : Pos
deriving DecidableEq, Repr

/-- LSP diagnostic severity. -/
inductive Severity where
  | error
  | warning
  | information
  | hint
deriving DecidableEq, Repr

/-- LSP diagnostic as constructed by the validator: severity, range,
message and the constant source tag "scrapscript". -/
structure Diagnostic where
  severity : Severity
  range : SrcRange
  message : String
  source : String
deriving DecidableEq, Repr

/-- Concrete syntax tree node, the output contract of the external
tree-sitter parser: grammar `type` tag, source `text` slice, whether the
node is a named production (`named`), the `hasError` recovery flag, the
row/column span, and the ordered list of all children (named and
anonymous). -/
inductive SNode where
  | mk (type : String) (text : String) (named : Bool) (hasError : Bool)
       (startPos endPos : Pos) (children : List SNode)

def SNode.type : SNode → String
  | .mk t _ _ _ _ _ _ => t

def SNode.text : SNode → String
  | .mk _ x _ _ _ _ _ => x

def SNode.named : SNode → Bool
  | .mk _ _ nm _ _ _ _ => nm

def SNode.hasError : SNode → Bool
  | .mk _ _ _ he _ _ _ => he

def SNode.startPos : SNode → Pos
  | .mk _ _ _ _ s _ _ => s

def SNode.endPos : SNode → Pos
  | .mk _ _ _ _ _ e _ => e

def SNode.children : SNode → List SNode
  | .mk _ _ _ _ _ _ cs => cs

/-- The named-child subset (`node.namedChildren`): tree-sitter exposes
`namedChild(i)` as the i-th child whose `named` flag is set. -/
def namedChildren (n : SNode) : List SNode :=
  n.children.filter (fun c => c.named)

/-- `node.namedChild(0)`. -/
def firstNamedChild (n : SNode) : Option SNode :=
  (namedChildren n).head?

/-- `nodeToRange`: converts a node span to an editor range
(`Range.create(startPosition.row, startPosition.column, endPosition.row,
endPosition.column)`). -/
def nodeToRange (n : SNode) : SrcRange :=
  { start := { row := n.startPos.row, col := n.startPos.col }
    stop := { row := n.endPos.row, col := n.endPos.col } }

/-! JavaScript string-operation models, working on the character list. -/

/-- Prefix test on character lists. -/
def isPrefixL : List Char → List Char → Bool
  | [], _ => true
  | _ :: _, [] => false
  | a :: as, b :: bs => a == b && isPrefixL as bs

/-- Substring occurrence test on character lists. -/
def includesL (pat : List Char) : List Char → Bool
  | [] => pat.isEmpty
  | c :: cs => isPrefixL pat (c :: cs) || includesL pat cs

/-- JavaScript `s.includes(pat)`. -/
def jsIncludes (s pat : String) : Bool :=
  includesL pat.data s.data

/-- JavaScript `s.startsWith(pat)`. -/
def jsStartsWith (s pat : String) : Bool :=
  isPrefixL pat.data s.data

/-- Whitespace recognised by JavaScript `trim`. -/
def jsIsWs (c : Char) : Bool :=
  c == ' ' || c == '\t' || c == '\n' || c == '\r'

/-- JavaScript `s.trim()`. -/
def jsTrim (s : String) : String :=
  ⟨((s.data.dropWhile jsIsWs).reverse.dropWhile jsIsWs).reverse⟩

/-- JavaScript `s.split("/")[0]`: the prefix before the first slash. -/
def jsSplitHead (s : String) : String :=
  ⟨s.data.takeWhile (fun c => c != '/')⟩

/-- The regular-expression test `/^[a-z]/.test(s)`. -/
def startsLowerB (s : String) : Bool :=
  match s.data with
  | [] => false
  | c :: _ => 'a' ≤ c && c ≤ 'z'

/-- Numeric value of a decimal digit character. -/
def digitVal (c : Char) : Nat :=
  c.toNat - 48

/-- Leading decimal-digit run of a character list, as a number;
`none` when there is no leading digit (JavaScript `NaN`). -/
def parseDigits (l : List Char) : Option Nat :=
  let ds := l.takeWhile (fun c => c.isDigit)
  if ds.isEmpty then none
  else some (ds.foldl (fun a c => a * 10 + digitVal c) 0)

/-- JavaScript `parseInt(s)` (radix 10): skip leading whitespace, accept
an optional sign, parse the leading digit run, ignore the rest;
`none` models `NaN`. -/
def parseIntJS (s : String) : Option Int :=
  match s.data.dropWhile jsIsWs with
  | '-' :: rest => (parseDigits rest).map (fun n => -(n : Int))
  | '+' :: rest => (parseDigits rest).map (fun n => (n : Int))
  | rest => (parseDigits rest).map (fun n => (n : Int))

/-! Tree traversal (`walkTree`): visit the node, then recurse into the
named children in order.  `walkCollect` returns the visit order, which
every validator and collector relies on. -/

mutual

def walkCollect (n : SNode) : List SNode :=
  match n with
  | .mk t x nm he s e cs => .mk t x nm he s e cs :: walkCollectList cs

def walkCollectList (l : List SNode) : List SNode :=
  match l with
  | [] => []
  | c :: cs => (if c.named then walkCollect c else []) ++ walkCollectList cs

end

/-! Error-node collection (`findErrorNodes`): prune on `hasError`,
collect nodes whose type is the reserved "ERROR" marker, and recurse
into ALL children (named and anonymous).  The parent's type tag, needed
by `createDiagnosticForError`, is threaded through the recursion; the
top-level call passes `none` for the root's absent parent. -/

mutual

def findErrorNodes (parentType : Option String) (n : SNode) : List (Option String × SNode) :=
  match n with
  | .mk t x nm he s e cs =>
    if he then
      (if t == "ERROR" then [(parentType, .mk t x nm he s e cs)] else [])
        ++ findErrorNodesList (some t) cs
    else []

def findErrorNodesList (parentType : Option String) (l : List SNode) : List (Option String × SNode) :=
  match l with
  | [] => []
  | c :: cs => findErrorNodes parentType c ++ findErrorNodesList parentType cs

end

/-- `createDiagnosticForError` of the enhanced validator: a bespoke
message per parent type, a generic fallback otherwise. -/
def createDiagnosticForError (parentType : Option String) (range : SrcRange) : Diagnostic :=
  { severity := .error
    range := range
    message :=
      match parentType with
      | none => "Syntax error in expression"
      | some t =>
        match t with
        | "where" => "Invalid where clause. Expected pattern \"; identifier = expression\""
        | "declaration" => "Invalid declaration. Expected \"identifier = expression\""
        | "pattern_match" => "Invalid pattern match. Expected \"| pattern -> expression\""
        | "function" => "Invalid function. Expected \"parameter -> expression\""
        | "record" => "Invalid record. Expected \"\x7b field = value, ... \x7d\""
        | "list" => "Invalid list. Expected \"[element1, element2, ...]\""
        | "tag" => "Invalid tag. Expected \"#identifier\""
        | "infix" => "Invalid infix expression. Expected left operator right"
        | "apply" => "Invalid function application"
        | other => "Syntax error in " ++ other
    source := "scrapscript" }

/-- Parse-error diagnostics of the enhanced validator: collected only
when the root reports `hasError`. -/
def errorDiagnostics (root : SNode) : List Diagnostic :=
  if root.hasError then
    (findErrorNodes none root).map (fun pn => createDiagnosticForError pn.1 (nodeToRange pn.2))
  else []

/-! Structural validators of the enhanced validator module. -/

/-- Case patterns of a pattern-matching construct: the named children
whose type is `pattern_case`. -/
def casePatterns (n : SNode) : List SNode :=
  (namedChildren n).filter (fun c => c.type == "pattern_case")

/-- The catch-all test of `validatePatternMatching`: the first named
child of the case is an `id` whose text is `_` or starts with a
lowercase letter (`/^[a-z]/`), or a `hole`. -/
def isCatchAllCase (pattern : SNode) : Bool :=
  match firstNamedChild pattern with
  | none => false
  | some patternNode =>
    (patternNode.type == "id" && (patternNode.text == "_" || startsLowerB patternNode.text))
      || patternNode.type == "hole"

/-- The non-exhaustiveness warning emitted by `validatePatternMatching`. -/
def patternWarning (n : SNode) : Diagnostic :=
  { severity := .warning
    range := nodeToRange n
    message := "Pattern match may not be exhaustive. Consider adding a catch-all case like \x27| _ -> ()\x27."
    source := "scrapscript" }

/-- `validatePatternMatching`: for every `match_fun` / `pattern_match`
node, warn when it has at least one case pattern and none of them is a
catch-all. -/
def validatePatternMatching (node : SNode) : List Diagnostic :=
  (walkCollect node).filterMap (fun currentNode =>
    if (currentNode.type == "match_fun" || currentNode.type == "pattern_match")
        && (0 < (casePatterns currentNode).length : Bool)
        && !((casePatterns currentNode).any isCatchAllCase) then
      some (patternWarning currentNode)
    else none)

/-- `inferBasicType`: the coarse type tag of a list element, derived
purely from the syntactic node type (`number` splits into int/float by
whether its text contains a dot). -/
def inferBasicType (node : SNode) : Option String :=
  match node.type with
  | "number" => some (if jsIncludes node.text "." then "float" else "int")
  | "text" => some "text"
  | "bytes" => some "bytes"
  | "tag" => some "tag"
  | "list" => some "list"
  | "record" => some "record"
  | "fun" => some "function"
  | "match_fun" => some "function"
  | "hole" => some "hole"
  | _ => none

/-- Insertion into a JavaScript `Set` modelled as an insertion-ordered
duplicate-free list. -/
def jsSetAdd (l : List String) (s : String) : List String :=
  if s ∈ l then l else l ++ [s]

/-- The `elementTypes` set of `validateTypeConsistency` for a list node:
the inferred tags of the named children, deduplicated in insertion
order. -/
def elementTypeSet (n : SNode) : List String :=
  ((namedChildren n).filterMap inferBasicType).foldl jsSetAdd []

/-- The heterogeneous-list error of `validateTypeConsistency`, whose
message joins the distinct element types in insertion order. -/
def listTypeError (n : SNode) : Diagnostic :=
  { severity := .error
    range := nodeToRange n
    message := "List elements must have the same type. Found: "
      ++ String.intercalate ", " (elementTypeSet n)
    source := "scrapscript" }

/-- `validateTypeConsistency`: error on every list literal whose
elements exhibit more than one distinct coarse type tag. -/
def validateTypeConsistency (node : SNode) : List Diagnostic :=
  (walkCollect node).filterMap (fun currentNode =>
    if currentNode.type == "list" && (1 < (elementTypeSet currentNode).length : Bool) then
      some (listTypeError currentNode)
    else none)

/-- The `"; identifier = expression"` scan of
`validateWhereClauseStructure`: some position `i` over ALL children has
a `;` child followed (with `i + 2` still in range) by an `id` child and
an `=` child. -/
def whereProperStructure (n : SNode) : Bool :=
  (List.range n.children.length).any (fun i =>
    match n.children.get? i, n.children.get? (i+1), n.children.get? (i+2) with
    | some c, some c1, some c2 =>
        c.type == ";" && decide (i + 2 < n.children.length) && c1.type == "id" && c2.type == "="
    | _, _, _ => false)

/-- `validateWhereClauseStructure`: error on every `where` node missing
the expected `"; identifier = expression"` child sequence. -/
def validateWhereClauseStructure (node : SNode) : List Diagnostic :=
  (walkCollect node).filterMap (fun currentNode =>
    if currentNode.type == "where" && !(whereProperStructure currentNode) then
      some { severity := .error
             range := nodeToRange currentNode
             message := "Invalid where clause. Expected \"; identifier = expression\""
             source := "scrapscript" }
    else none)

/-- `validateRecordSyntax`: inside every record node, error on each
`record_field` named child with fewer than two named children. -/
def validateRecordSyntax (node : SNode) : List Diagnostic :=
  (walkCollect node).flatMap (fun currentNode =>
    if currentNode.type == "record" then
      (namedChildren currentNode).filterMap (fun field =>
        if field.type == "record_field" && (namedChildren field).length < 2 then
          some { severity := .error
                 range := nodeToRange field
                 message := "Invalid record field. Expected \"field = value\""
                 source := "scrapscript" }
        else none)
    else [])

/-- `validateListSyntax`: error on every list node whose raw text
contains a doubled comma or a comma adjacent to a bracket. -/
def validateListSyntax (node : SNode) : List Diagnostic :=
  (walkCollect node).filterMap (fun currentNode =>
    if currentNode.type == "list"
        && (jsIncludes currentNode.text ",," || jsIncludes currentNode.text "[,"
            || jsIncludes currentNode.text ",]") then
      some { severity := .error
             range := nodeToRange currentNode
             message := "Invalid list syntax. Check for extra commas or missing elements."
             source := "scrapscript" }
    else none)

/-- `validateFunctionSyntax`: error on every `fun` node whose raw text
lacks the arrow token. -/
def validateFunctionSyntax (node : SNode) : List Diagnostic :=
  (walkCollect node).filterMap (fun currentNode =>
    if currentNode.type == "fun" && !(jsIncludes currentNode.text "->") then
      some { severity := .error
             range := nodeToRange currentNode
             message := "Invalid function syntax. Expected \"parameter -> expression\""
             source := "scrapscript" }
    else none)

/-- The synthetic diagnostic pushed by the `catch` block of
`validateScrapScript`: Error severity at (0,0)-(0,0), message embedding
the stringified thrown error. -/
def parseFailureDiag (err : String) : Diagnostic :=
  { severity := .error
    range := { start := { row := 0, col := 0 }, stop := { row := 0, col := 0 } }
    message := "Failed to parse ScrapScript: " ++ err
    source := "scrapscript" }

/-- JavaScript `try`-block semantics over a sequence of diagnostic
producing steps (the parse/collect phase followed by the structural
validators, each of which pushes into the shared `diagnostics` array):
steps run in order, their outputs accumulate, and the first step that
throws aborts the remaining steps and transfers to the `catch` block,
which appends the synthetic parse-failure diagnostic to whatever had
been pushed so far. -/
def tryCatchDiagnostics : List (Except String (List Diagnostic)) → List Diagnostic
  | [] => []
  | .ok ds :: rest => ds ++ tryCatchDiagnostics rest
  | .error e :: _ => [parseFailureDiag e]

/-- The step sequence of the enhanced `validateScrapScript` `try` block:
`parse(text)` (throwing aborts everything), then parse-error collection
and the six structural validators, all total. -/
def validateSteps (parseResult : Except String SNode) : List (Except String (List Diagnostic)) :=
  match parseResult with
  | .error e => [.error e]
  | .ok rootNode =>
      [.ok (errorDiagnostics rootNode),
       .ok (validatePatternMatching rootNode),
       .ok (validateTypeConsistency rootNode),
       .ok (validateWhereClauseStructure rootNode),
       .ok ( validateRecordSyntax rootNode),
       .ok ( validateListSyntax rootNode),
       .ok ( validateFunctionSyntax rootNode)]

/-- Enhanced `validateScrapScript(text, maxNumberOfProblems)`.  The
external `parse(text)` call is abstracted by its outcome
`parseResult`; the final `diagnostics.slice(0, maxNumberOfProblems)`
is `List.take`. -/
def validateScrapScript (parseResult : Except String SNode) (maxNumberOfProblems : Nat) : List Diagnostic :=
  (tryCatchDiagnostics (validateSteps parseResult)).take maxNumberOfProblems

/-- The contextual message table of the earlier `validator.ts` revision
(`checkSyntaxErrors`): a generic message overridden for where /
declaration / infix / apply parents. -/
def serverErrorDiag (parentType : Option String) (range : SrcRange) : Diagnostic :=
  { severity := .error
    range := range
    message :=
      match parentType with
      | none => "Syntax error in expression"
      | some t =>
        match t with
        | "where" => "Invalid where declaration. Expected pattern \";\" declaration"
        | "declaration" => "Invalid declaration. Expected pattern \"=\" expression or pattern \":\" id"
        | "infix" => "Invalid infix expression. Expected left op right"
        | "apply" => "Invalid function application"
        | other => "Syntax error in " ++ other
    source := "scrapscript" }

/-- `checkSyntaxErrors` of the earlier `validator.ts` revision. -/
def checkSyntaxErrors (rootNode : SNode) : List Diagnostic :=
  if rootNode.hasError then
    (findErrorNodes none rootNode).map (fun pn => serverErrorDiag pn.1 (nodeToRange pn.2))
  else []

/-- `validateScrapScript` of the earlier `validator.ts` revision: the
syntax-error diagnostics are truncated when pushed
(`diagnostics.push(...syntaxErrors.slice(0, maxNumberOfProblems))`),
but the synthetic diagnostic pushed by the `catch` block is returned
without any truncation. -/
def validateScrapScriptServer (parseResult : Except String SNode) (maxNumberOfProblems : Nat) : List Diagnostic :=
  match parseResult with
  | .ok rootNode => (checkSyntaxErrors rootNode).take maxNumberOfProblems
  | .error e => [parseFailureDiag e]

/-! Completion engine of the enhanced server module.  The static
catalogs are embedded verbatim; JavaScript template placeholders and
braces inside snippet strings are escaped. -/

/-- The operator token catalog `OPERATORS`. -/
def OPERATORS : List String :=
  ["+", "-", "*", "/", "//", "%", "^",
   "==", "/=", "<", ">", "<=", ">=",
   "&&", "||",
   "::", "++", ">+", "+<",
   ">>", "<<", "|>",
   ".",
   "->", "|",
   ":",
   "?", "!", "\x27", ".."]

/-- The built-in function catalog `BUILT_IN_FUNCTIONS`. -/
def BUILT_IN_FUNCTIONS : List String :=
  ["list/map", "list/filter", "list/fold", "list/first", "list/last",
   "list/head", "list/tail", "list/length", "list/reverse", "list/sort",
   "list/sum", "list/product", "list/concat", "list/flatten",
   "maybe/default", "maybe/map", "maybe/bind", "maybe/with-default",
   "result/map", "result/bind", "result/default", "result/map-error",
   "text/length", "text/to-upper", "text/to-lower", "text/split",
   "text/join", "text/trim", "text/starts-with", "text/ends-with",
   "text/contains",
   "bytes/to-utf8-text", "bytes/from-utf8-text", "bytes/length",
   "to-float", "to-int", "round", "ceil", "floor",
   "dict/get", "dict/set", "dict/has", "dict/keys", "dict/values",
   "dict/map", "dict/filter", "dict/fold",
   "io/print", "io/read", "io/write",
   "remote/fetch", "remote/post", "remote/get"]

/-- The tag-name catalog `COMMON_TAGS`. -/
def COMMON_TAGS : List String :=
  ["true", "false", "some", "none", "ok", "error", "success", "failure",
   "left", "right", "just", "nothing", "add", "sub", "mul", "div", "mod",
   "vanilla", "chocolate", "strawberry", "circle", "rectangle", "triangle"]

/-- The type-name catalog `COMMON_TYPES`. -/
def COMMON_TYPES : List String :=
  ["int", "float", "text", "bytes", "bool", "list", "record", "fun",
   "maybe", "result", "remote", "platform", "dict", "array"]

/-- The reserved-keyword catalog `KEYWORDS` (empty in the source). -/
def KEYWORDS : List String := []

/-- LSP completion item kinds used by the server. -/
inductive CompletionItemKind where
  | function
  | operator
  | keyword
  | enumMember
  | field
  | typeParameter
  | value
  | snippet
  | module
deriving DecidableEq, Repr

/-- LSP insert-text format. -/
inductive InsertTextFormat where
  | plainText
  | snippet
deriving DecidableEq, Repr

/-- LSP completion item as constructed by the server. -/
structure CompletionItem where
  label : String
  kind : CompletionItemKind
  detail : String
  documentation : String
  insertText : Option String
  insertTextFormat : Option InsertTextFormat
  sortText : Option String
deriving DecidableEq, Repr

/-- Item constructor for catalog entries that set only the four common
fields. -/
def mkItem (label : String) (kind : CompletionItemKind) (detail documentation : String) : CompletionItem :=
  { label := label, kind := kind, detail := detail, documentation := documentation
    insertText := none, insertTextFormat := none, sortText := none }

/-- `getOperatorDocumentation`: static operator documentation table with
a generic fallback. -/
def getOperatorDocumentation (op : String) : String :=
  match op with
  | "|>" => "**Pipeline operator**: passes the left value to the function on the right\n\nExample: `[1,2,3] |> list/map (x -> x * 2)`"
  | "==" => "**Equality operator**: checks if two values are equal"
  | "/=" => "**Inequality operator**: checks if two values are not equal"
  | "<" => "**Less than operator**: numeric comparison"
  | ">" => "**Greater than operator**: numeric comparison"
  | "<=" => "**Less than or equal operator**: numeric comparison"
  | ">=" => "**Greater than or equal operator**: numeric comparison"
  | "*" => "**Multiplication operator**: multiply two numbers"
  | "/" => "**Division operator**: divide two numbers"
  | "//" => "**Integer division operator**: divide and truncate to integer"
  | "%" => "**Modulo operator**: remainder after division"
  | "+" => "**Addition operator**: add two numbers or concatenate"
  | "-" => "**Subtraction operator**: subtract two numbers"
  | "&&" => "**Logical AND operator**: boolean AND"
  | "||" => "**Logical OR operator**: boolean OR"
  | "::" => "**Cons operator**: add element to front of list\n\nExample: `1 :: [2,3,4]` → `[1,2,3,4]`"
  | "++" => "**Concatenation operator**: join lists or text\n\nExample: `[1,2] ++ [3,4]` → `[1,2,3,4]`"
  | ">+" => "**Cons pattern operator**: destructure list in patterns\n\nExample: `| head >+ tail -> ...`"
  | "+<" => "**Append operator**: add element to end of list\n\nExample: `[1,2,3] +< 4` → `[1,2,3,4]`"
  | ".." => "**Range operator**: create ranges"
  | "." => "**Record field extraction**: extract field from record\n\nExample: `person~name`"
  | ">>" => "**Function composition (right to left)**: compose functions\n\nExample: `f >> g` means `x -> f(g(x))`"
  | "<<" => "**Function composition (left to right)**: compose functions\n\nExample: `f << g` means `x -> g(f(x))`"
  | "^" => "**Exponentiation operator**: raise to power"
  | "\x27" => "**Apply operator**: function application"
  | ":" => "**Type annotation operator**: specify types\n\nExample: `value : int`"
  | "?" => "**Guard operator**: conditional in patterns\n\nExample: `| n ? n > 0 -> \"positive\"`"
  | "!" => "**Force unwrap operator**: extract from maybe/result"
  | ";" => "**Where clause or field access**: define variables or access fields"
  | "->" => "**Function arrow**: create functions or pattern cases\n\nExample: `x -> x + 1`"
  | "|" => "**Pattern case separator**: separate pattern matching cases"
  | _ => "Operator: " ++ op

/-- `getFunctionDocumentation`: static signature strings for a few
built-ins, generic fallback otherwise. -/
def getFunctionDocumentation (func : String) : String :=
  match func with
  | "list/map" => "Transform each element of a list: `list/map : (a -> b) -> list a -> list b`"
  | "list/filter" => "Filter elements of a list: `list/filter : (a -> bool) -> list a -> list a`"
  | "list/fold" => "Reduce a list to a single value: `list/fold : b -> (b -> a -> b) -> list a -> b`"
  | "list/head" => "Get the first element of a list: `list/head : list a -> maybe a`"
  | "list/tail" => "Get all but the first element: `list/tail : list a -> maybe (list a)`"
  | "maybe/default" => "Provide a default for maybe values: `maybe/default : a -> maybe a -> a`"
  | "result/map" => "Transform successful results: `result/map : (a -> b) -> result a e -> result b e`"
  | "text/split" => "Split text by delimiter: `text/split : text -> text -> list text`"
  | "to-float" => "Convert integer to float: `to-float : int -> float`"
  | _ => "Built-in function: " ++ func

/-- `getTagCompletions`. -/
def getTagCompletions : List CompletionItem :=
  COMMON_TAGS.map (fun tag =>
    { label := tag, kind := .enumMember, detail := "Tag"
      documentation := "Built-in tag: #" ++ tag
      insertText := some tag, insertTextFormat := none, sortText := none })

/-- `getFunctionCompletions`: one Function item per built-in, the detail
derived from the module prefix before the first slash. -/
def getFunctionCompletions : List CompletionItem :=
  BUILT_IN_FUNCTIONS.map (fun func =>
    mkItem func .function (jsSplitHead func ++ " function") (getFunctionDocumentation func))

/-- `getOperatorCompletions`. -/
def getOperatorCompletions : List CompletionItem :=
  OPERATORS.map (fun op => mkItem op .operator "Operator" (getOperatorDocumentation op))

/-- `getTypeCompletions`. -/
def getTypeCompletions : List CompletionItem :=
  COMMON_TYPES.map (fun ty => mkItem ty .typeParameter "Type" ("Built-in type: " ++ ty))

/-- `getGlobalCompletions`: built-in functions, operators and types plus
the two boolean literals and the hole literal. -/
def getGlobalCompletions : List CompletionItem :=
  getFunctionCompletions ++ getOperatorCompletions ++ getTypeCompletions ++
    [mkItem "true" .value "Boolean" "Boolean true value",
     mkItem "false" .value "Boolean" "Boolean false value",
     mkItem "()" .value "Hole" "Empty value (hole)"]

/-- `getWhereClauseCompletions`: one snippet template followed by the
global catalog. -/
def getWhereClauseCompletions : List CompletionItem :=
  { label := ". identifier = expression", kind := .snippet, detail := "Where clause"
    documentation := "Define a variable in a where clause"
    insertText := some ". $\x7b1:identifier\x7d = $\x7b2:expression\x7d"
    insertTextFormat := some .snippet, sortText := none } :: getGlobalCompletions

/-- JavaScript `index.toString().padStart(2, "0")`. -/
def padStart2 (s : String) : String :=
  match s.data with
  | [] => "00"
  | [c] => ⟨['0', c]⟩
  | _ => s

/-- The ordered snippet-template table of `getPatternMatchCompletions`. -/
def patternTemplates : List (String × String) :=
  [("basic pattern", "| $\x7b1:pattern\x7d -> $\x7b2:expression\x7d"),
   ("catch-all", "| _ -> $\x7b1:default\x7d"),
   ("empty list", "| [] -> $\x7b1:empty_case\x7d"),
   ("list head+tail", "| $\x7b1:head\x7d >+ $\x7b2:tail\x7d -> $\x7b3:expression\x7d"),
   ("list elements", "| [ $\x7b1:elements\x7d ] -> $\x7b2:expression\x7d"),
   ("record pattern", "| \x7b $\x7b1:fields\x7d \x7d -> $\x7b2:expression\x7d"),
   ("tag pattern", "| #$\x7b1:tag\x7d $\x7b2:value\x7d -> $\x7b3:expression\x7d"),
   ("guard pattern", "| $\x7b1:pattern\x7d ? $\x7b2:condition\x7d -> $\x7b3:expression\x7d"),
   ("number pattern", "| $\x7b1:0\x7d -> $\x7b2:expression\x7d"),
   ("text pattern", "| \"$\x7b1:text\x7d\" -> $\x7b2:expression\x7d")]

/-- `getPatternMatchCompletions`: snippet items with zero-padded sort
keys that keep them before free-text matches. -/
def getPatternMatchCompletions : List CompletionItem :=
  patternTemplates.enum.map (fun p =>
    { label := p.2.1, kind := .snippet, detail := "Pattern match case"
      documentation := "Pattern matching case: " ++ p.2.1
      insertText := some p.2.2, insertTextFormat := some .snippet
      sortText := some ("0" ++ padStart2 (toString p.1)) })

/-- `getRecordFieldCompletions`: fixed placeholder field names (the
`recordType` argument is accepted and ignored, as in the source). -/
def getRecordFieldCompletions (_recordType : Option String) : List CompletionItem :=
  ["name", "id", "value", "type", "data", "result", "status", "message"].map
    (fun field => mkItem field .field "Record field" ("Access field: " ++ field))

/-- `getPipelineCompletions`: three pipeline operators followed by the
function catalog. -/
def getPipelineCompletions : List CompletionItem :=
  [{ label := "|>", kind := .operator, detail := "Pipeline operator"
     documentation := "Pass value to next function in pipeline"
     insertText := some "|> $\x7b1:function\x7d", insertTextFormat := some .snippet
     sortText := none },
   mkItem ">>" .operator "Function composition" "Compose functions (right to left)",
   mkItem "<<" .operator "Function composition" "Compose functions (left to right)"]
    ++ getFunctionCompletions

/-- `getImportCompletions`: fixed module-name catalog. -/
def getImportCompletions : List CompletionItem :=
  ["list", "maybe", "result", "text", "dict", "io", "remote", "math",
   "date", "json", "http", "file"].map
    (fun m => mkItem m .module "Module" ("Import " ++ m ++ " module functions"))

/-- Internal completion-context variants of `analyzeCompletionContext`. -/
inductive CompletionContext where
  | tag
  | whereClause
  | patternMatch
  | recordField (recordType : Option String)
  | functionCall
  | operatorCtx
  | typeAnn
  | pipeline (pipelineType : String)
  | importCtx
  | global
deriving DecidableEq, Repr

/-- `findParentOfType`: walk the parent chain starting at the node
itself until a node of the requested type is found.  The ancestor chain
(nearest first) stands in for the parent back-references of the
tree-sitter nodes. -/
def findParentOfType (node : SNode) (ancestors : List SNode) (ty : String) : Option SNode :=
  (node :: ancestors).find? (fun c => c.type == ty)

/-- `inferPipelineType`: scan the enclosing pipeline's raw text for
list/maybe/result idioms. -/
def inferPipelineType (node : SNode) (ancestors : List SNode) : String :=
  match findParentOfType node ancestors "pipeline" with
  | some parent =>
    if jsIncludes parent.text "[" || jsIncludes parent.text "list/" then "list"
    else if jsIncludes parent.text "maybe/" || jsIncludes parent.text "#some"
        || jsIncludes parent.text "#none" then "maybe"
    else if jsIncludes parent.text "result/" || jsIncludes parent.text "#ok"
        || jsIncludes parent.text "#error" then "result"
    else "unknown"
  | none => "unknown"

/-- `analyzeCompletionContext`: prioritized first-match-wins rule list
over the current-line prefix text and the node's parent chain. -/
def analyzeCompletionContext (lineText : String) (node : SNode) (ancestors : List SNode) : CompletionContext :=
  let parentType := (ancestors.head?).map SNode.type
  if jsIncludes lineText "#" || parentType == some "tag" then .tag
  else if jsStartsWith (jsTrim lineText) ";" || (findParentOfType node ancestors "where").isSome then
    .whereClause
  else if jsStartsWith (jsTrim lineText) "|" || (findParentOfType node ancestors "pattern_match").isSome then
    .patternMatch
  else if jsIncludes lineText "." || parentType == some "record_access" then .recordField none
  else if jsIncludes lineText " : " || parentType == some "type_annotation" then .typeAnn
  else if jsIncludes lineText "|>" || (findParentOfType node ancestors "pipeline").isSome then
    .pipeline (inferPipelineType node ancestors)
  else if jsIncludes lineText "import" || jsIncludes lineText "use" then .importCtx
  else .global

/-- `getCompletionItems(document, position)`: parse (abstracted by its
outcome `parseResult`; a thrown parse error propagates, there is no
try/catch in this function), resolve the node at the cursor (abstracted
by `resolved`, standing for `getNodeAtPosition`), classify, dispatch to
the catalog for the context.  `lineText` is the current-line prefix up
to the cursor used by the classifier. -/
def getCompletionItems (parseResult : Except String SNode) (lineText : String)
    (resolved : SNode → Option (SNode × List SNode)) : Except String (List CompletionItem) := do
  let tree ← parseResult
  match resolved tree with
  | none => pure getGlobalCompletions
  | some (node, ancestors) =>
    match analyzeCompletionContext lineText node ancestors with
    | .tag => pure getTagCompletions
    | .whereClause => pure getWhereClauseCompletions
    | .patternMatch => pure getPatternMatchCompletions
    | .recordField rt => pure (getRecordFieldCompletions rt)
    | .functionCall => pure getFunctionCompletions
    | .operatorCtx => pure getOperatorCompletions
    | .typeAnn => pure getTypeCompletions
    | .pipeline _ => pure getPipelineCompletions
    | .importCtx => pure getImportCompletions
    | .global => pure getGlobalCompletions

/-! Hover resolver of the enhanced server module. -/

/-- Digit character as produced by JavaScript `Number.toString(base)`
followed by `.toUpperCase()`. -/
def digitChar (d : Nat) : Char :=
  if d < 10 then Char.ofNat (48 + d) else Char.ofNat (55 + d)

/-- Big-endian digit expansion with explicit fuel (the fuel is always
instantiated with a bound at least the value, which suffices because the
value strictly shrinks at each division). -/
def toBaseAux (base : Nat) : Nat → Nat → List Nat
  | 0, _ => []
  | _ + 1, 0 => []
  | fuel + 1, n + 1 => toBaseAux base fuel ((n + 1) / base) ++ [(n + 1) % base]

/-- Big-endian digits of `n` in the given base (`[0]` for zero), the
digit sequence produced by JavaScript `n.toString(base)`. -/
def toBaseDigits (base n : Nat) : List Nat :=
  if n = 0 then [0] else toBaseAux base n n

/-- Value of a big-endian digit list. -/
def ofBaseDigits (base : Nat) (ds : List Nat) : Nat :=
  ds.foldl (fun acc d => acc * base + d) 0

/-- Render a digit list as a string. -/
def renderDigits (ds : List Nat) : String :=
  ⟨ds.map digitChar⟩

/-- JavaScript `num.toString(2)`. -/
def numToString2 (n : Nat) : String :=
  renderDigits (toBaseDigits 2 n)

/-- JavaScript `num.toString(16).toUpperCase()`. -/
def numToHexUpper (n : Nat) : String :=
  renderDigits (toBaseDigits 16 n)

/-- `getNumberHover(numberText)`: float literals (text containing a dot)
echo their parsed value; integer literals in [0, 1000000] get binary and
hex conversions, those up to 255 additionally a padded single-byte hex
rendering.  `parseFloat` followed by JavaScript number printing is
IEEE-754 behaviour of the host and is abstracted by the `fr`
parameter. -/
def getNumberHover (fr : String → String) (numberText : String) : String :=
  if jsIncludes numberText "." then
    "**`" ++ numberText ++ "`** (Float)\n\nFloating-point number: " ++ fr numberText
  else
    let extra :=
      match parseIntJS numberText with
      | none => ""
      | some num =>
        if 0 ≤ num ∧ num ≤ 1000000 then
          "\n\n**Conversions:**\n- Binary: `" ++ numToString2 num.toNat
            ++ "`\n- Hex: `0x" ++ numToHexUpper num.toNat ++ "`"
            ++ (if num ≤ 255 then
                  "\n- Byte: `;" ++ padStart2 (numToHexUpper num.toNat) ++ "`"
                else "")
        else ""
    "**`" ++ numberText ++ "`** (Integer)" ++ extra

/-- `getIdentifierHover`: static built-in identifier documentation table
with a generic fallback. -/
def getIdentifierHover (identifier : String) : String :=
  match identifier with
  | "true" => "**`true`** - Boolean constant representing true"
  | "false" => "**`false`** - Boolean constant representing false"
  | "list/map" => "**`list/map`** - Transform each element of a collection\n\n`list/map : (a -> b) -> list a -> list b`\n\nExample: `list/map (x -> x * 2) [1,2,3]` → `[2,4,6]`"
  | "list/filter" => "**`list/filter`** - Filter elements of a collection\n\n`list/filter : (a -> bool) -> list a -> list a`\n\nExample: `list/filter (x -> x > 2) [1,2,3,4]` → `[3,4]`"
  | "list/fold" => "**`list/fold`** - Reduce a collection to a single value\n\n`list/fold : b -> (b -> a -> b) -> list a -> b`\n\nExample: `list/fold 0 (+) [1,2,3]` → `6`"
  | "list/head" => "**`list/head`** - Get the first element\n\n`list/head : list a -> maybe a`"
  | "list/tail" => "**`list/tail`** - Get all but the first element\n\n`list/tail : list a -> maybe (list a)`"
  | "list/length" => "**`list/length`** - Get the number of elements\n\n`list/length : list a -> int`"
  | "maybe/default" => "**`maybe/default`** - Provide a default for maybe values\n\n`maybe/default : a -> maybe a -> a`\n\nExample: `maybe/default 0 (#some 5)` → `5`"
  | "maybe/map" => "**`maybe/map`** - Transform maybe values\n\n`maybe/map : (a -> b) -> maybe a -> maybe b`"
  | "maybe/bind" => "**`maybe/bind`** - Chain maybe computations\n\n`maybe/bind : (a -> maybe b) -> maybe a -> maybe b`"
  | "result/map" => "**`result/map`** - Transform successful results\n\n`result/map : (a -> b) -> result a e -> result b e`"
  | "result/bind" => "**`result/bind`** - Chain result computations\n\n`result/bind : (a -> result b e) -> result a e -> result b e`"
  | "text/length" => "**`text/length`** - Get text length\n\n`text/length : text -> int`"
  | "text/split" => "**`text/split`** - Split text by delimiter\n\n`text/split : text -> text -> list text`"
  | "text/join" => "**`text/join`** - Join text with separator\n\n`text/join : text -> list text -> text`"
  | "to-float" => "**`to-float`** - Convert integer to float\n\n`to-float : int -> float`\n\nExample: `to-float 42` → `42.0`"
  | "to-int" => "**`to-int`** - Convert float to integer (truncate)\n\n`to-int : float -> int`"
  | "round" => "**`round`** - Round float to nearest integer\n\n`round : float -> int`"
  | "ceil" => "**`ceil`** - Round float up to integer\n\n`ceil : float -> int`"
  | "floor" => "**`floor`** - Round float down to integer\n\n`floor : float -> int`"
  | "bytes/to-utf8-text" => "**`bytes/to-utf8-text`** - Convert bytes to UTF-8 text\n\n`bytes/to-utf8-text : bytes -> text`"
  | "bytes/from-utf8-text" => "**`bytes/from-utf8-text`** - Convert UTF-8 text to bytes\n\n`bytes/from-utf8-text : text -> bytes`"
  | _ => "**`" ++ identifier ++ "`** (Identifier)"

/-- `getTagHover`: the tag name is the text of the first named child;
known tags get a table entry, unknown ones a generic rendering. -/
def getTagHover (doc : SrcRange → String) (node : SNode) : String :=
  let tagName :=
    match firstNamedChild node with
    | some idNode => doc (nodeToRange idNode)
    | none => ""
  match tagName with
  | "true" => "**`#true`** - Boolean true tag\n\nUsed in pattern matching for boolean values."
  | "false" => "**`#false`** - Boolean false tag\n\nUsed in pattern matching for boolean values."
  | "some" => "**`#some`** - Option type tag for existing values\n\nExample: `#some 42` represents a value that exists."
  | "none" => "**`#none`** - Option type tag for missing values\n\nExample: `#none ()` represents no value."
  | "ok" => "**`#ok`** - Result type tag for successful operations\n\nExample: `#ok result` represents a successful computation."
  | "error" => "**`#error`** - Result type tag for failed operations\n\nExample: `#error \"message\"` represents a failed computation."
  | "just" => "**`#just`** - Maybe type tag for existing values\n\nSimilar to `#some`, represents a value that exists."
  | "nothing" => "**`#nothing`** - Maybe type tag for missing values\n\nSimilar to `#none`, represents no value."
  | "left" => "**`#left`** - Either type tag for left value\n\nConvention: used for error cases in Either types."
  | "right" => "**`#right`** - Either type tag for right value\n\nConvention: used for success cases in Either types."
  | "success" => "**`#success`** - Success tag\n\nGeneric success indicator."
  | "failure" => "**`#failure`** - Failure tag\n\nGeneric failure indicator."
  | "add" => "**`#add`** - Addition operation tag\n\nUsed in arithmetic operation types."
  | "sub" => "**`#sub`** - Subtraction operation tag\n\nUsed in arithmetic operation types."
  | "mul" => "**`#mul`** - Multiplication operation tag\n\nUsed in arithmetic operation types."
  | "div" => "**`#div`** - Division operation tag\n\nUsed in arithmetic operation types."
  | other => "**`#" ++ other ++ "`** (Tag)\n\nCustom tag identifier."

/-- `getEnhancedHoverForNode`: dispatch on the node type; the default
branch retries on the parent, modelled by consuming the ancestor chain
(nearest first), and returns `none` at the root. -/
def getEnhancedHoverForNode (fr : String → String) (doc : SrcRange → String) :
    SNode → List SNode → Option String
  | node, ancestors =>
    let nodeText := doc (nodeToRange node)
    match node.type with
    | "id" => some (getIdentifierHover nodeText)
    | "op" => some (getOperatorDocumentation nodeText)
    | "tag" => some (getTagHover doc node)
    | "number" => some (getNumberHover fr nodeText)
    | "text" =>
        some ("**`" ++ nodeText ++ "`** (Text)\n\nText literal with "
          ++ toString ((nodeText.length : Int) - 2) ++ " characters.")
    | "bytes" => some ("**`" ++ nodeText ++ "`** (Bytes)\n\nBase64-encoded bytes literal.")
    | "fun" => some "**Function** - Anonymous function expression\n\nSyntax: `parameter -> expression`\n\nExample: `x -> x * 2`"
    | "match_fun" => some "**Pattern Matching Function** - Function with pattern matching\n\nSyntax:\n```scrapscript\n| pattern1 -> expression1\n| pattern2 -> expression2\n| _ -> default\n```"
    | "where" => some "**Where Clause** - Local variable definition\n\nSyntax: `; identifier = expression`\n\nExample:\n```scrapscript\nresult\n; result = x + y\n; x = 10\n; y = 20\n```"
    | "record" => some "**Record** - Structured data type\n\nSyntax: `\x7b field1 = value1, field2 = value2 \x7d`\n\nExample:\n```scrapscript\nperson = \x7b name = \"John\", age = 30 \x7d\n```"
    | "list" => some "**List** - Ordered collection of same-type elements\n\nSyntax: `[element1, element2, ...]`\n\nExample:\n```scrapscript\nnumbers = [1, 2, 3, 4, 5]\n```"
    | "hole" => some "**Hole** - Empty value `()`\n\nRepresents emptiness or absence of value. Used as placeholder or unit type."
    | "pipeline" => some "**Pipeline** - Chain of function applications\n\nSyntax: `value |> function1 |> function2`\n\nExample:\n```scrapscript\n[1,2,3] |> list/map (x -> x * 2) |> list/sum\n```"
    | "infix" => some "**Infix Expression** - Binary operation\n\nSyntax: `left operator right`"
    | "apply" => some "**Function Application** - Calling a function\n\nSyntax: `function argument`"
    | _ =>
      match ancestors with
      | [] => none
      | p :: rest => getEnhancedHoverForNode fr doc p rest

/-- `getHoverInfo(document, position)`: parse (abstracted by
`parseResult`; a thrown parse error propagates, there is no try/catch),
resolve the node at the cursor, render; the markdown `Hover` wrapper is
modelled by the markdown string itself. -/
def getHoverInfo (fr : String → String) (parseResult : Except String SNode)
    (doc : SrcRange → String) (resolved : SNode → Option (SNode × List SNode)) :
    Except String (Option String) := do
  let tree ← parseResult
  match resolved tree with
  | none => pure none
  | some (node, ancestors) =>
    match getEnhancedHoverForNode fr doc node ancestors with
    | none => pure none
    | some s => pure (some s)

/-! Document-symbol extractor of the enhanced server module. -/

/-- LSP symbol kinds used by the extractor (`cls` stands for the LSP
`Class` kind, `null` for `Null`). -/
inductive SymbolKind where
  | function
  | object
  | array
  | number
  | string
  | enum
  | variable
  | cls
  | null
deriving DecidableEq, Repr

/-- LSP document symbol (children are always empty in this design but
the shape supports nesting). -/
inductive DocumentSymbol where
  | mk (name : String) (kind : SymbolKind) (range selectionRange : SrcRange)
       (detail : String) (children : List DocumentSymbol)

def DocumentSymbol.name : DocumentSymbol → String
  | .mk nm _ _ _ _ _ => nm

def DocumentSymbol.kind : DocumentSymbol → SymbolKind
  | .mk _ k _ _ _ _ => k

def DocumentSymbol.range : DocumentSymbol → SrcRange
  | .mk _ _ r _ _ _ => r

def DocumentSymbol.selectionRange : DocumentSymbol → SrcRange
  | .mk _ _ _ sr _ _ => sr

def DocumentSymbol.detail : DocumentSymbol → String
  | .mk _ _ _ _ d _ => d

/-! `getSymbolName`: identifier patterns yield their document text, tag
patterns `#<inner>`, record/list patterns placeholders, parenthesized
patterns recurse into their first named child, anything else its raw
type tag (JavaScript `node.type || "unknown"`). -/

mutual

def getSymbolName (doc : SrcRange → String) (n : SNode) : String :=
  match n with
  | .mk t x nm he s e cs =>
    match t with
    | "id" => doc (nodeToRange (.mk t x nm he s e cs))
    | "tag" =>
      match (cs.filter (fun c => c.named)).head? with
      | some tagId => "#" ++ doc (nodeToRange tagId)
      | none => "#unknown"
    | "record" => "\x7b...\x7d"
    | "list" => "[...]"
    | "parens" => parensSymbolName doc cs
    | "hole" => "()"
    | other => if other == "" then "unknown" else other

def parensSymbolName (doc : SrcRange → String) (l : List SNode) : String :=
  match l with
  | [] => "(...)"
  | c :: cs => if c.named then "(" ++ getSymbolName doc c ++ ")" else parensSymbolName doc cs

end

/-- `getSymbolKind`: dispatch on the type of the bound expression. -/
def getSymbolKind (exprNode : Option SNode) : SymbolKind :=
  match exprNode with
  | none => .variable
  | some e =>
    match e.type with
    | "fun" => .function
    | "match_fun" => .function
    | "record" => .object
    | "list" => .array
    | "number" => .number
    | "text" => .string
    | "tag" => .enum
    | "bytes" => .string
    | "hole" => .null
    | "type_declaration" => .cls
    | _ => .variable

/-- `getSymbolDetail`: human label derived from the bound expression
type (the declaration node itself is not consulted). -/
def getSymbolDetail (exprNode : Option SNode) : String :=
  match exprNode with
  | none => ""
  | some e =>
    match e.type with
    | "fun" => "Function"
    | "match_fun" => "Pattern matching function"
    | "record" => "Record"
    | "list" => "List"
    | "tag" => "Tagged value"
    | "number" => if jsIncludes e.text "." then "Float" else "Integer"
    | "text" => "Text"
    | "bytes" => "Bytes"
    | "hole" => "Hole"
    | "type_declaration" => "Type definition"
    | _ => ""

/-- `createDocumentSymbol`: name from the pattern (first child), kind
and detail from the bound expression (last named child), range over the
whole node, selection range over the pattern. -/
def createDocumentSymbol (doc : SrcRange → String) (node : SNode) : DocumentSymbol :=
  match node.children.head? with
  | none => .mk "unknown" .variable (nodeToRange node) (nodeToRange node) "" []
  | some patternNode =>
    let exprNode := (namedChildren node).getLast?
    .mk (getSymbolName doc patternNode) (getSymbolKind exprNode)
        (nodeToRange node) (nodeToRange patternNode) (getSymbolDetail exprNode) []

/-- `findNodesOfType`: pre-order collection of the nodes with the given
type tag. -/
def findNodesOfType (rootNode : SNode) (ty : String) : List SNode :=
  (walkCollect rootNode).filter (fun n => n.type == ty)

/-- The `"; identifier"` scan of `findWhereClauseDeclarations` (note: it
does not require the `=` that `validateWhereClauseStructure` checks). -/
def whereDeclCond (n : SNode) : Bool :=
  (List.range n.children.length).any (fun i =>
    match n.children.get? i, n.children.get? (i+1) with
    | some c, some c1 =>
        c.type == ";" && decide (i + 2 < n.children.length) && c1.type == "id"
    | _, _ => false)

/-- `findWhereClauseDeclarations`: every `where` node that contains a
`; identifier` child sequence is added once, as its own declaration
context. -/
def findWhereClauseDeclarations (rootNode : SNode) : List SNode :=
  (walkCollect rootNode).filter (fun n => n.type == "where" && whereDeclCond n)

/-- `getDocumentSymbols(document)`: the three collections concatenated
(declarations, where-clause contexts, type declarations), each mapped to
a symbol.  The parse step is abstracted by passing the root node. -/
def getDocumentSymbols (doc : SrcRange → String) (rootNode : SNode) : List DocumentSymbol :=
  (findNodesOfType rootNode "declaration" ++ findWhereClauseDeclarations rootNode
     ++ findNodesOfType rootNode "type_declaration").map (createDocumentSymbol doc)

/-! Reference / rename engine of the enhanced server module. -/

/-- `findReferences(document, position)`: empty unless the resolved node
is an identifier; otherwise the spans of every identifier node in the
tree whose document text equals the target's text (`Location` is
modelled by its range, the uri being the constant document uri). -/
def findReferences (doc : SrcRange → String) (rootNode : SNode) (nodeOpt : Option SNode) : List SrcRange :=
  match nodeOpt with
  | none => []
  | some node =>
    if node.type == "id" then
      let identifier := doc (nodeToRange node)
      (walkCollect rootNode).filterMap (fun currentNode =>
        if currentNode.type == "id" && doc (nodeToRange currentNode) == identifier then
          some (nodeToRange currentNode)
        else none)
    else []

/-- `prepareRename(document, position)`: null unless the resolved node
is an identifier whose text is neither a registered built-in function
nor a reserved keyword. -/
def prepareRename (doc : SrcRange → String) (nodeOpt : Option SNode) : Option (SrcRange × String) :=
  match nodeOpt with
  | none => none
  | some node =>
    if node.type == "id" then
      let identifier := doc (nodeToRange node)
      if identifier ∈ BUILT_IN_FUNCTIONS ∨ identifier ∈ KEYWORDS then none
      else some (nodeToRange node, identifier)
    else none

/-- `executeRename(document, position, newName)`: reuses
`findReferences`; null when no references were found, otherwise one
(range, newName) edit per reference. -/
def executeRename (doc : SrcRange → String) (rootNode : SNode) (nodeOpt : Option SNode)
    (newName : String) : Option (List (SrcRange × String)) :=
  let references := findReferences doc rootNode nodeOpt
  if references.isEmpty then none
  else some (references.map (fun r => (r, newName)))

/-! Concrete syntax trees used to evaluate the engine on specific
documents.  Node spans follow the raw-text layout; text fields carry the
corresponding source slice; anonymous punctuation children are present
with `named := false`, as tree-sitter produces them. -/

/-- The list elements of the document `mixed = [1, "text", 3.14]`. -/
def mixedNum1 : SNode := .mk "number" "1" true false ⟨0,9⟩ ⟨0,10⟩ []

def mixedText : SNode := .mk "text" "\"text\"" true false ⟨0,12⟩ ⟨0,18⟩ []

def mixedNum314 : SNode := .mk "number" "3.14" true false ⟨0,20⟩ ⟨0,24⟩ []

/-- The heterogeneous list node of `mixed = [1, "text", 3.14]`. -/
def mixedList : SNode := .mk "list" "[1, \"text\", 3.14]" true false ⟨0,8⟩ ⟨0,26⟩
  [.mk "[" "[" false false ⟨0,8⟩ ⟨0,9⟩ [], mixedNum1,
   .mk "," "," false false ⟨0,10⟩ ⟨0,11⟩ [], mixedText,
   .mk "," "," false false ⟨0,18⟩ ⟨0,19⟩ [], mixedNum314,
   .mk "]" "]" false false ⟨0,25⟩ ⟨0,26⟩ []]

def mixedDecl : SNode := .mk "declaration" "mixed = [1, \"text\", 3.14]" true false ⟨0,0⟩ ⟨0,26⟩
  [.mk "id" "mixed" true false ⟨0,0⟩ ⟨0,5⟩ [],
   .mk "=" "=" false false ⟨0,6⟩ ⟨0,7⟩ [],
   mixedList]

/-- Root of the parse tree of `mixed = [1, "text", 3.14]`. -/
def mixedRoot : SNode := .mk "source_file" "mixed = [1, \"text\", 3.14]" true false ⟨0,0⟩ ⟨0,26⟩
  [mixedDecl]

/-- Step sequence of a diagnostics run over `mixedRoot` in which the
pattern-exhaustiveness validator raises an internal exception before the
type-consistency validator gets to run: parse-error collection
succeeded, the second step throws, the third step is the output the
type-consistency validator would have contributed. -/
def c2steps : List (Except String (List Diagnostic)) :=
  [.ok (errorDiagnostics mixedRoot),
   .error "RangeError: Maximum call stack size exceeded",
   .ok (validateTypeConsistency mixedRoot)]

/-! Document `a = 1 / b = 2 / c = 3` (three plain declarations). -/

def abcDeclA : SNode := .mk "declaration" "a = 1" true false ⟨0,0⟩ ⟨0,5⟩
  [.mk "id" "a" true false ⟨0,0⟩ ⟨0,1⟩ [],
   .mk "=" "=" false false ⟨0,2⟩ ⟨0,3⟩ [],
   .mk "number" "1" true false ⟨0,4⟩ ⟨0,5⟩ []]

def abcDeclB : SNode := .mk "declaration" "b = 2" true false ⟨1,0⟩ ⟨1,5⟩
  [.mk "id" "b" true false ⟨1,0⟩ ⟨1,1⟩ [],
   .mk "=" "=" false false ⟨1,2⟩ ⟨1,3⟩ [],
   .mk "number" "2" true false ⟨1,4⟩ ⟨1,5⟩ []]

def abcDeclC : SNode := .mk "declaration" "c = 3" true false ⟨2,0⟩ ⟨2,5⟩
  [.mk "id" "c" true false ⟨2,0⟩ ⟨2,1⟩ [],
   .mk "=" "=" false false ⟨2,2⟩ ⟨2,3⟩ [],
   .mk "number" "3" true false ⟨2,4⟩ ⟨2,5⟩ []]

def abcRoot : SNode := .mk "source_file" "a = 1\nb = 2\nc = 3" true false ⟨0,0⟩ ⟨2,5⟩
  [abcDeclA, abcDeclB, abcDeclC]

/-- Range-based text extraction for the `a = 1 / b = 2 / c = 3`
document. -/
def abcDoc (r : SrcRange) : String :=
  if r = { start := ⟨0,0⟩, stop := ⟨0,1⟩ } then "a"
  else if r = { start := ⟨1,0⟩, stop := ⟨1,1⟩ } then "b"
  else if r = { start := ⟨2,0⟩, stop := ⟨2,1⟩ } then "c"
  else ""

/-! Document `a = r / ; x = 1 / b = 2`: the first declaration binds a
where-clause expression, the second declaration follows it. -/

def c4Use : SNode := .mk "id" "r" true false ⟨0,4⟩ ⟨0,5⟩ []

def c4X : SNode := .mk "id" "x" true false ⟨1,2⟩ ⟨1,3⟩ []

def c4Where : SNode := .mk "where" "r\n; x = 1" true false ⟨0,4⟩ ⟨1,7⟩
  [c4Use,
   .mk ";" ";" false false ⟨1,0⟩ ⟨1,1⟩ [],
   c4X,
   .mk "=" "=" false false ⟨1,4⟩ ⟨1,5⟩ [],
   .mk "number" "1" true false ⟨1,6⟩ ⟨1,7⟩ []]

def c4DeclA : SNode := .mk "declaration" "a = r\n; x = 1" true false ⟨0,0⟩ ⟨1,7⟩
  [.mk "id" "a" true false ⟨0,0⟩ ⟨0,1⟩ [],
   .mk "=" "=" false false ⟨0,2⟩ ⟨0,3⟩ [],
   c4Where]

def c4DeclB : SNode := .mk "declaration" "b = 2" true false ⟨2,0⟩ ⟨2,5⟩
  [.mk "id" "b" true false ⟨2,0⟩ ⟨2,1⟩ [],
   .mk "=" "=" false false ⟨2,2⟩ ⟨2,3⟩ [],
   .mk "number" "2" true false ⟨2,4⟩ ⟨2,5⟩ []]

def c4Root : SNode := .mk "source_file" "a = r\n; x = 1\nb = 2" true false ⟨0,0⟩ ⟨2,5⟩
  [c4DeclA, c4DeclB]

/-- Range-based text extraction for the where-clause document. -/
def c4Doc (r : SrcRange) : String :=
  if r = { start := ⟨0,0⟩, stop := ⟨0,1⟩ } then "a"
  else if r = { start := ⟨2,0⟩, stop := ⟨2,1⟩ } then "b"
  else if r = { start := ⟨0,4⟩, stop := ⟨0,5⟩ } then "r"
  else if r = { start := ⟨1,2⟩, stop := ⟨1,3⟩ } then "x"
  else ""

/-! Document `f = / | _tmp -> 0`: a pattern-matching function whose only
case pattern is the identifier `_tmp` (an identifier pattern that is
neither the bare placeholder nor lowercase-initial). -/

def c5IdPat : SNode := .mk "id" "_tmp" true false ⟨1,2⟩ ⟨1,6⟩ []

def c5Case : SNode := .mk "pattern_case" "| _tmp -> 0" true false ⟨1,0⟩ ⟨1,11⟩
  [.mk "|" "|" false false ⟨1,0⟩ ⟨1,1⟩ [],
   c5IdPat,
   .mk "->" "->" false false ⟨1,7⟩ ⟨1,9⟩ [],
   .mk "number" "0" true false ⟨1,10⟩ ⟨1,11⟩ []]

def c5Match : SNode := .mk "match_fun" "| _tmp -> 0" true false ⟨1,0⟩ ⟨1,11⟩
  [c5Case]

def c5Root : SNode := .mk "source_file" "f =\n| _tmp -> 0" true false ⟨0,0⟩ ⟨1,11⟩
  [c5Match]

/-! Nodes and documents for the rename and reference checks. -/

def c8Id : SNode := .mk "id" "foo" true false ⟨0,0⟩ ⟨0,3⟩ []

def c8Op : SNode := .mk "op" "+" true false ⟨0,4⟩ ⟨0,5⟩ []

/-- Document in which the identifier at (0,0)-(0,3) reads `foo`. -/
def c8Doc (r : SrcRange) : String :=
  if r = { start := ⟨0,0⟩, stop := ⟨0,3⟩ } then "foo" else ""

/-- Document in which the identifier at (0,0)-(0,3) reads `list/map`,
a registered built-in function name. -/
def c8DocBuiltin (r : SrcRange) : String :=
  if r = { start := ⟨0,0⟩, stop := ⟨0,3⟩ } then "list/map" else ""

def c10Id : SNode := .mk "id" "x" true false ⟨0,0⟩ ⟨0,1⟩ []

def c10Num : SNode := .mk "number" "1" true false ⟨0,4⟩ ⟨0,5⟩ []

def c10Decl : SNode := .mk "declaration" "x = 1" true false ⟨0,0⟩ ⟨0,5⟩
  [c10Id, .mk "=" "=" false false ⟨0,2⟩ ⟨0,3⟩ [], c10Num]

def c10Root : SNode := .mk "source_file" "x = 1" true false ⟨0,0⟩ ⟨0,5⟩
  [c10Decl]

/-- Range-based text extraction for the document `x = 1`. -/
def c10Doc (r : SrcRange) : String :=
  if r = { start := ⟨0,0⟩, stop := ⟨0,1⟩ } then "x"
  else if r = { start := ⟨0,4⟩, stop := ⟨0,5⟩ } then "1"
  else ""

/-! Specification-side predicates. -/

/-- A case pattern counts as a catch-all: its pattern (first named
child) is a hole, or an identifier that is the bare placeholder or
lowercase-initial. -/
def CatchAllCase (p : SNode) : Prop :=
  ∃ pn, firstNamedChild p = some pn ∧
    (pn.type = "hole" ∨ (pn.type = "id" ∧ (pn.text = "_" ∨ startsLowerB pn.text = true)))

instance instDecidableCatchAllCase (p : SNode) : Decidable (CatchAllCase p) :=
  match h : firstNamedChild p with
  | none => isFalse (by simp [CatchAllCase, h])
  | some pn =>
    decidable_of_iff
      (pn.type = "hole" ∨ (pn.type = "id" ∧ (pn.text = "_" ∨ startsLowerB pn.text = true)))
      (by simp [CatchAllCase, h])

/-- Condition under which the exhaustiveness validator warns about a
node: a pattern-matching construct with at least one case pattern, none
of which is a catch-all. -/
def specPatternCond (n : SNode) : Prop :=
  (n.type = "match_fun" ∨ n.type = "pattern_match") ∧
    0 < (casePatterns n).length ∧ ∀ p ∈ casePatterns n, ¬ CatchAllCase p

instance instDecidableSpecPatternCond (n : SNode) : Decidable (specPatternCond n) := by
  unfold specPatternCond; infer_instance

/-- More than one distinct coarse type tag appears among the elements of
a list node. -/
def HasTwoDistinctTags (n : SNode) : Prop :=
  ∃ a ∈ (namedChildren n).filterMap inferBasicType,
    ∃ b ∈ (namedChildren n).filterMap inferBasicType, a ≠ b

instance instDecidableHasTwoDistinctTags (n : SNode) : Decidable (HasTwoDistinctTags n) := by
  unfold HasTwoDistinctTags; infer_instance

/-! Helper lemmas. -/

/-- Membership in a JavaScript-`Set` fold. -/
theorem mem_jsSetFold (l : List String) :
    ∀ (acc : List String) (x : String), x ∈ l.foldl jsSetAdd acc ↔ x ∈ acc ∨ x ∈ l := by
  induction l with
  | nil => intro acc x; simp
  | cons a l ih =>
    intro acc x
    rw [List.foldl_cons, ih]
    unfold jsSetAdd
    by_cases h : a ∈ acc
    · rw [if_pos h]
      constructor
      · rintro (hx | hx)
        · exact Or.inl hx
        · exact Or.inr (List.mem_cons_of_mem a hx)
      · rintro (hx | hx)
        · exact Or.inl hx
        · rcases List.mem_cons.mp hx with hx | hx
          · exact Or.inl (hx ▸ h)
          · exact Or.inr hx
    · rw [if_neg h]
      constructor
      · rintro (hx | hx)
        · rcases List.mem_append.mp hx with hx | hx
          · exact Or.inl hx
          · exact Or.inr (List.mem_cons.mpr (Or.inl (List.mem_singleton.mp hx)))
        · exact Or.inr (List.mem_cons_of_mem a hx)
      · rintro (hx | hx)
        · exact Or.inl (List.mem_append.mpr (Or.inl hx))
        · rcases List.mem_cons.mp hx with hx | hx
          · exact Or.inl (List.mem_append.mpr (Or.inr (List.mem_singleton.mpr hx)))
          · exact Or.inr hx

/-- A JavaScript-`Set` fold preserves freedom from duplicates. -/
theorem nodup_jsSetFold (l : List String) :
    ∀ acc : List String, acc.Nodup → (l.foldl jsSetAdd acc).Nodup := by
  induction l with
  | nil => intro acc h; simpa using h
  | cons a l ih =>
    intro acc h
    rw [List.foldl_cons]
    apply ih
    unfold jsSetAdd
    by_cases ha : a ∈ acc
    · rwa [if_pos ha]
    · rw [if_neg ha]
      simp [List.nodup_append, h, ha]

/-- A list with two distinct members has length above one. -/
theorem one_lt_length_of_two_mem {S : List String} {a b : String}
    (ha : a ∈ S) (hb : b ∈ S) (hab : a ≠ b) : 1 < S.length := by
  match S with
  | [] => exact absurd ha (List.not_mem_nil a)
  | [x] =>
    rw [List.mem_singleton] at ha hb
    exact absurd (ha.trans hb.symm) hab
  | x :: y :: t => simp only [List.length_cons]; omega

/-- The `elementTypes` set exceeds one entry exactly when two elements
carry distinct coarse type tags. -/
theorem one_lt_elementTypeSet_iff (n : SNode) :
    1 < (elementTypeSet n).length ↔ HasTwoDistinctTags n := by
  unfold elementTypeSet HasTwoDistinctTags
  set l := (namedChildren n).filterMap inferBasicType with hl
  have hmem : ∀ x, x ∈ l.foldl jsSetAdd [] ↔ x ∈ l := by
    intro x; rw [mem_jsSetFold]; simp
  constructor
  · intro h
    match hS : l.foldl jsSetAdd [] with
    | [] => rw [hS] at h; simp at h
    | [x] => rw [hS] at h; simp at h
    | x :: y :: t =>
      have hnd : (l.foldl jsSetAdd []).Nodup := nodup_jsSetFold l [] List.nodup_nil
      rw [hS] at hnd
      have hxy : x ≠ y := by
        rcases List.nodup_cons.mp hnd with ⟨hx, _⟩
        intro he; exact hx (he ▸ List.mem_cons_self y t)
      refine ⟨x, ?_, y, ?_, hxy⟩
      · exact (hmem x).mp (hS ▸ List.mem_cons_self x (y :: t))
      · exact (hmem y).mp (hS ▸ List.mem_cons_of_mem x (List.mem_cons_self y t))
  · rintro ⟨a, ha, b, hb, hab⟩
    exact one_lt_length_of_two_mem ((hmem a).mpr ha) ((hmem b).mpr hb) hab

/-- The boolean catch-all test agrees with the catch-all predicate. -/
theorem isCatchAllCase_iff (p : SNode) : isCatchAllCase p = true ↔ CatchAllCase p := by
  unfold isCatchAllCase CatchAllCase
  cases h : firstNamedChild p with
  | none => simp
  | some pn =>
    simp only [h, Option.some.injEq, exists_eq_left', Bool.or_eq_true, Bool.and_eq_true,
      beq_iff_eq]
    tauto

/-- Value correctness of the fuelled digit expansion. -/
theorem ofBase_toBaseAux (base : Nat) (hb : 2 ≤ base) :
    ∀ fuel n, n ≤ fuel → ofBaseDigits base (toBaseAux base fuel n) = n := by
  intro fuel
  induction fuel with
  | zero =>
    intro n h
    have : n = 0 := Nat.le_zero.mp h
    subst this
    simp [toBaseAux, ofBaseDigits]
  | succ fuel ih =>
    intro n h
    match n with
    | 0 => simp [toBaseAux, ofBaseDigits]
    | m + 1 =>
      have hlt : (m + 1) / base < m + 1 := Nat.div_lt_self (Nat.succ_pos m) (by omega)
      have hrec := ih ((m + 1) / base) (by omega)
      show ofBaseDigits base (toBaseAux base fuel ((m + 1) / base) ++ [(m + 1) % base]) = m + 1
      unfold ofBaseDigits at hrec ⊢
      rw [List.foldl_append, hrec]
      simp only [List.foldl_cons, List.foldl_nil]
      have hdm := Nat.div_add_mod (m + 1) base
      rw [Nat.mul_comm ((m + 1) / base) base]
      omega

/-- Value correctness of the digit expansion: the digit string shown in
the numeric hover decodes back to the hovered value. -/
theorem ofBase_toBaseDigits (base n : Nat) (hb : 2 ≤ base) :
    ofBaseDigits base (toBaseDigits base n) = n := by
  unfold toBaseDigits
  by_cases h : n = 0
  · subst h; simp [ofBaseDigits]
  · rw [if_neg h]
    exact ofBase_toBaseAux base hb n n le_rfl

/-- The boolean warn-condition of the exhaustiveness validator agrees
with `specPatternCond`. -/
theorem patternCond_iff (n : SNode) :
    ((n.type == "match_fun" || n.type == "pattern_match")
        && (0 < (casePatterns n).length : Bool)
        && !((casePatterns n).any isCatchAllCase)) = true ↔ specPatternCond n := by
  unfold specPatternCond
  simp only [Bool.and_eq_true, Bool.or_eq_true, beq_iff_eq, decide_eq_true_eq,
    Bool.not_eq_true', List.any_eq_false, isCatchAllCase_iff]
  tauto

/-- The boolean error-condition of the type-consistency validator
agrees with `HasTwoDistinctTags`. -/
theorem typeCond_iff (n : SNode) :
    ((n.type == "list") && (1 < (elementTypeSet n).length : Bool)) = true ↔
      (n.type = "list" ∧ HasTwoDistinctTags n) := by
  simp only [Bool.and_eq_true, beq_iff_eq, decide_eq_true_eq, one_lt_elementTypeSet_iff]

/-- C1.  Corrected.  The enhanced `validateScrapScript` truncates its
final diagnostics array, so it returns at most `k` entries and an empty
array at cap zero, on every path including the catastrophic one; the
`validator.ts` revision caps only its syntax-error diagnostics, and on
the catastrophic path returns the synthetic diagnostic without applying
the cap. -/
theorem c1_diagnostic_cap_amended :
    (∀ (parseResult : Except String SNode) (k : Nat),
      (validateScrapScript parseResult k).length ≤ k) ∧
    (∀ parseResult : Except String SNode, validateScrapScript parseResult 0 = []) ∧
    (∀ (root : SNode) (k : Nat), (validateScrapScriptServer (.ok root) k).length ≤ k) ∧
    (∀ (e : String) (k : Nat), validateScrapScriptServer (.error e) k = [parseFailureDiag e]) := by
  refine ⟨fun pr k => List.length_take_le k _, fun pr => rfl,
    fun root k => List.length_take_le k _, fun e k => rfl⟩

/-- C1, counterexample.  The `validator.ts` revision of
`validateScrapScript`, called with cap 0 while the parser throws,
returns one diagnostic instead of an empty array: the synthetic
catastrophic-failure diagnostic escapes the cap. -/
theorem c1_server_cap_counterexample :
    validateScrapScriptServer (.error "Error: Parser not initialized") 0 =
      [parseFailureDiag "Error: Parser not initialized"] ∧
    (validateScrapScriptServer (.error "Error: Parser not initialized") 0).length = 1 :=
  ⟨rfl, rfl⟩

/-- C2.  Corrected.  The whole diagnostics run sits in one `try` block:
when a validator step throws, the diagnostics already pushed (parse
errors and earlier validators) are kept and the catch block appends the
synthetic failure diagnostic, but the validators after the throwing one
never run — the result does not depend on their would-be output.  When
no step throws, all outputs are concatenated. -/
theorem c2_validator_isolation_amended :
    (∀ (pre : List (List Diagnostic)) (e : String)
        (post : List (Except String (List Diagnostic))),
      tryCatchDiagnostics (pre.map Except.ok ++ Except.error e :: post) =
        pre.flatten ++ [parseFailureDiag e]) ∧
    (∀ ls : List (List Diagnostic), tryCatchDiagnostics (ls.map Except.ok) = ls.flatten) := by
  constructor
  · intro pre e post
    induction pre with
    | nil => simp [tryCatchDiagnostics]
    | cons d pre ih => simp [tryCatchDiagnostics, ih]
  · intro ls
    induction ls with
    | nil => simp [tryCatchDiagnostics]
    | cons d ls ih => simp [tryCatchDiagnostics, ih]

/-- C2, counterexample.  Over the document `mixed = [1, "text", 3.14]`,
the type-consistency validator would report the heterogeneous list; if
the pattern-exhaustiveness validator throws before it runs, the run
ends with the synthetic failure diagnostic and the type-consistency
diagnostic is suppressed. -/
theorem c2_validator_isolation_counterexample :
    listTypeError mixedList ∈ validateTypeConsistency mixedRoot ∧
    tryCatchDiagnostics c2steps =
      [parseFailureDiag "RangeError: Maximum call stack size exceeded"] ∧
    listTypeError mixedList ∉ tryCatchDiagnostics c2steps := by
  refine ⟨by decide, rfl, by decide⟩

/-- C3.  Corrected.  When the parse succeeds, `getCompletionItems` and
`getHoverInfo` always return a value (an absent cursor node degrades to
the Global catalog, and an unrecognized context to Global or a null
hover); but both call `parse` outside any try/catch, so a throwing
parser (e.g. not initialized) propagates the exception to the caller. -/
theorem c3_no_throw_amended :
    (∀ (root : SNode) (lineText : String) (resolved : SNode → Option (SNode × List SNode)),
      ∃ items, getCompletionItems (.ok root) lineText resolved = .ok items) ∧
    (∀ (fr : String → String) (root : SNode) (doc : SrcRange → String)
        (resolved : SNode → Option (SNode × List SNode)),
      ∃ h, getHoverInfo fr (.ok root) doc resolved = .ok h) ∧
    (∀ (root : SNode) (lineText : String),
      getCompletionItems (.ok root) lineText (fun _ => none) = .ok getGlobalCompletions) ∧
    (∀ (e : String) (lineText : String) (resolved : SNode → Option (SNode × List SNode)),
      getCompletionItems (.error e) lineText resolved = .error e) ∧
    (∀ (fr : String → String) (e : String) (doc : SrcRange → String)
        (resolved : SNode → Option (SNode × List SNode)),
      getHoverInfo fr (.error e) doc resolved = .error e) := by
  refine ⟨?_, ?_, fun root lineText => rfl, fun e lineText resolved => rfl,
    fun fr e doc resolved => rfl⟩
  · intro root lineText resolved
    rcases hres : resolved root with _ | ⟨node, ancestors⟩
    · exact ⟨getGlobalCompletions, by simp [getCompletionItems, bind, Except.bind, hres]; try rfl⟩
    · rcases hctx : analyzeCompletionContext lineText node ancestors
      all_goals exact ⟨_, by simp [getCompletionItems, bind, Except.bind, pure, Except.pure, hres, hctx]; try rfl⟩
  · intro fr root doc resolved
    rcases hres : resolved root with _ | ⟨node, ancestors⟩
    · exact ⟨none, by simp [getHoverInfo, bind, Except.bind, hres]; try rfl⟩
    · rcases hh : getEnhancedHoverForNode fr doc node ancestors
      all_goals exact ⟨_, by simp [getHoverInfo, bind, Except.bind, pure, Except.pure, hres, hh]; try rfl⟩

/-- C3, counterexample.  With an uninitialized parser, `parse` throws
`Error: Parser not initialized`, and both `getCompletionItems` and
`getHoverInfo` let the exception escape instead of returning an
empty/null result or the Global catalog. -/
theorem c3_no_throw_counterexample :
    getCompletionItems (.error "Error: Parser not initialized") "" (fun _ => none) =
      .error "Error: Parser not initialized" ∧
    getHoverInfo (fun s => s) (.error "Error: Parser not initialized") (fun _ => "")
        (fun _ => none) =
      .error "Error: Parser not initialized" :=
  ⟨rfl, rfl⟩

/-- C7.  Confirmed.  When `parse` throws, `validateScrapScript` with cap
at least one returns exactly the single synthetic diagnostic: Error
severity, range (0,0)-(0,0), message embedding the failure reason; no
validator output is present. -/
theorem c7_catastrophic_parse (e : String) (k : Nat) (hk : 1 ≤ k) :
    validateScrapScript (.error e) k = [parseFailureDiag e] ∧
    (parseFailureDiag e).severity = .error ∧
    (parseFailureDiag e).range = { start := ⟨0,0⟩, stop := ⟨0,0⟩ } ∧
    (parseFailureDiag e).message = "Failed to parse ScrapScript: " ++ e := by
  refine ⟨?_, rfl, rfl, rfl⟩
  show ([parseFailureDiag e]).take k = [parseFailureDiag e]
  exact List.take_of_length_le (by simpa using hk)

/-- C7, witness. -/
theorem c7_catastrophic_parse_witness :
    1 ≤ (1 : Nat) ∧
    validateScrapScript (.error "Error: Parser not initialized") 1 =
      [parseFailureDiag "Error: Parser not initialized"] :=
  ⟨le_rfl, (c7_catastrophic_parse "Error: Parser not initialized" 1 le_rfl).1⟩

/-- C4.  Corrected.  `getDocumentSymbols` returns three groups
concatenated — declaration nodes, where-clause contexts containing a
`; identifier` sequence, and type declarations — each group internally
in pre-order document order (a sublist of the traversal); where-clause
entries therefore come after ALL top-level declarations, not in global
document order.  A document of exactly three plain declarations named
a, b, c yields exactly those three entries in source order. -/
theorem c4_symbols_order_amended :
    (∀ (root : SNode) (ty : String), (findNodesOfType root ty).Sublist (walkCollect root)) ∧
    (∀ root : SNode, (findWhereClauseDeclarations root).Sublist (walkCollect root)) ∧
    (∀ (doc : SrcRange → String) (root : SNode),
      getDocumentSymbols doc root =
        (findNodesOfType root "declaration" ++ findWhereClauseDeclarations root
          ++ findNodesOfType root "type_declaration").map (createDocumentSymbol doc)) ∧
    (getDocumentSymbols abcDoc abcRoot).map DocumentSymbol.name = ["a", "b", "c"] ∧
    (getDocumentSymbols abcDoc abcRoot).length = 3 :=
  ⟨fun root ty => List.filter_sublist _, fun root => List.filter_sublist _,
   fun doc root => rfl, rfl, rfl⟩

/-- C4, counterexample.  In the document `a = r ; x = 1` followed by
`b = 2`, the where-clause entry (starting at row 0, column 4) is
returned after the declaration `b` (starting at row 2): the output is
not in document (pre-order) traversal order, and the where clause
contributes a separate third entry beyond the two declarations. -/
theorem c4_symbols_order_counterexample :
    (getDocumentSymbols c4Doc c4Root).map (fun s => s.range.start.row) = [0, 2, 0] ∧
    ¬ ((getDocumentSymbols c4Doc c4Root).map (fun s => s.range.start.row)).Sorted (· ≤ ·) ∧
    (getDocumentSymbols c4Doc c4Root).map DocumentSymbol.name = ["a", "b", "r"] ∧
    (getDocumentSymbols c4Doc c4Root).length = 3 := by
  refine ⟨rfl, ?_, rfl, rfl⟩
  intro h
  rw [show (getDocumentSymbols c4Doc c4Root).map (fun s => s.range.start.row) =
      [0, 2, 0] from rfl] at h
  have h2 := List.sorted_cons.mp h
  have h3 := List.sorted_cons.mp h2.2
  exact absurd (h3.1 0 (List.mem_singleton_self 0)) (by omega)

/-- C5.  Corrected.  The exhaustiveness validator warns on a
pattern-matching construct exactly when it has at least one case
pattern and no case is a catch-all, where a catch-all is a hole pattern
or an identifier pattern whose text is the bare placeholder or begins
with a lowercase letter: an identifier pattern such as `_tmp` or an
uppercase-initial one does not count. -/
theorem c5_pattern_exhaustiveness_amended (root : SNode) :
    validatePatternMatching root = (walkCollect root).filterMap (fun n =>
      if specPatternCond n then some (patternWarning n) else none) := by
  unfold validatePatternMatching
  apply List.filterMap_congr
  intro n _
  by_cases h : specPatternCond n
  · rw [if_pos ((patternCond_iff n).mpr h), if_pos h]
  · rw [if_neg (fun hb => h ((patternCond_iff n).mp hb)), if_neg h]

/-- C5, counterexample.  The match function whose only case pattern is
the identifier `_tmp` has an identifier-pattern case, yet the validator
emits the non-exhaustiveness warning: the claim's notion of catch-all
(any identifier pattern) does not match the code's. -/
theorem c5_pattern_exhaustiveness_counterexample :
    (∃ p ∈ casePatterns c5Match, ∃ pn, firstNamedChild p = some pn ∧ pn.type = "id") ∧
    validatePatternMatching c5Root = [patternWarning c5Match] := by
  constructor
  · refine ⟨c5Case, ?_, c5IdPat, rfl, rfl⟩
    show c5Case ∈ casePatterns c5Match
    rw [show casePatterns c5Match = [c5Case] from rfl]
    exact List.mem_singleton_self c5Case
  · rfl

/-- C6.  Confirmed.  The type-consistency validator emits its Error on
a node exactly when the node is a list literal among whose elements two
distinct coarse type tags occur; on the document
`mixed = [1, "text", 3.14]` the full diagnostics pipeline yields
exactly one diagnostic whose message names the differing element
types. -/
theorem c6_list_homogeneity :
    (∀ root : SNode, validateTypeConsistency root = (walkCollect root).filterMap (fun n =>
      if n.type = "list" ∧ HasTwoDistinctTags n then some (listTypeError n) else none)) ∧
    validateScrapScript (.ok mixedRoot) 1000 = [listTypeError mixedList] ∧
    (listTypeError mixedList).message =
      "List elements must have the same type. Found: int, text, float" ∧
    (listTypeError mixedList).severity = .error := by
  refine ⟨?_, rfl, rfl, rfl⟩
  intro root
  unfold validateTypeConsistency
  apply List.filterMap_congr
  intro n _
  by_cases h : n.type = "list" ∧ HasTwoDistinctTags n
  · rw [if_pos ((typeCond_iff n).mpr h), if_pos h]
  · rw [if_neg (fun hb => h ((typeCond_iff n).mp hb)), if_neg h]

/-- C8.  Confirmed.  `prepareRename` returns null when the resolved
node is absent or not an identifier, and for identifiers whose text is
a registered built-in function name or a reserved keyword (the keyword
catalog is empty in the source); any other identifier yields its range
with its text as placeholder. -/
theorem c8_prepare_rename (doc : SrcRange → String) (nodeOpt : Option SNode) :
    (nodeOpt = none → prepareRename doc nodeOpt = none) ∧
    (∀ n, nodeOpt = some n → n.type ≠ "id" → prepareRename doc nodeOpt = none) ∧
    (∀ n, nodeOpt = some n → n.type = "id" →
      (doc (nodeToRange n) ∈ BUILT_IN_FUNCTIONS ∨ doc (nodeToRange n) ∈ KEYWORDS) →
      prepareRename doc nodeOpt = none) ∧
    (∀ n, nodeOpt = some n → n.type = "id" →
      doc (nodeToRange n) ∉ BUILT_IN_FUNCTIONS → doc (nodeToRange n) ∉ KEYWORDS →
      prepareRename doc nodeOpt = some (nodeToRange n, doc (nodeToRange n))) := by
  refine ⟨?_, ?_, ?_, ?_⟩
  · intro h; subst h; rfl
  · intro n h hne; subst h
    simp only [prepareRename]
    rw [if_neg (by simp [hne])]
  · intro n h hid hm; subst h
    simp only [prepareRename]
    rw [if_pos (show (n.type == "id") = true by simp [hid])]
    exact if_pos hm
  · intro n h hid hm1 hm2; subst h
    simp only [prepareRename]
    rw [if_pos (show (n.type == "id") = true by simp [hid])]
    exact if_neg (by rintro (hc | hc); exacts [hm1 hc, hm2 hc])

/-- C8, witness. -/
theorem c8_prepare_rename_witness :
    prepareRename c8Doc (some c8Id) = some (nodeToRange c8Id, c8Doc (nodeToRange c8Id)) ∧
    prepareRename c8DocBuiltin (some c8Id) = none ∧
    prepareRename c8Doc (some c8Op) = none := by
  refine ⟨?_, ?_, ?_⟩
  · exact (c8_prepare_rename c8Doc (some c8Id)).2.2.2 c8Id rfl rfl (by decide) (by decide)
  · exact (c8_prepare_rename c8DocBuiltin (some c8Id)).2.2.1 c8Id rfl rfl (by decide)
  · exact (c8_prepare_rename c8Doc (some c8Op)).2.1 c8Op rfl (by decide)

/-- C9.  Confirmed.  Hover on an integer literal whose value lies in
[0, 1000000] shows its binary and hexadecimal expansions (whose digit
strings decode back to the value), plus a padded single-byte hex
rendering exactly when the value is at most 255; values above the range
and negative values get the bare integer hover with no conversion
lines; a literal containing a dot echoes its parsed decimal value
(host float printing abstracted by `fr`). -/
theorem c9_number_hover (fr : String → String) (s t u : String) (n : Nat) (m : Int)
    (hs : jsIncludes s "." = false) (hn : parseIntJS s = some (n : Int))
    (ht : jsIncludes t "." = true)
    (hu : jsIncludes u "." = false) (hm : parseIntJS u = some m) (hmneg : m < 0) :
    (n ≤ 1000000 →
      getNumberHover fr s =
        ("**`" ++ s ++ "`** (Integer)") ++
          ("\n\n**Conversions:**\n- Binary: `" ++ numToString2 n ++ "`\n- Hex: `0x"
            ++ numToHexUpper n ++ "`"
            ++ (if n ≤ 255 then "\n- Byte: `;" ++ padStart2 (numToHexUpper n) ++ "`" else "")) ∧
      ofBaseDigits 2 (toBaseDigits 2 n) = n ∧
      ofBaseDigits 16 (toBaseDigits 16 n) = n) ∧
    (1000000 < n → getNumberHover fr s = "**`" ++ s ++ "`** (Integer)") ∧
    getNumberHover fr u = "**`" ++ u ++ "`** (Integer)" ∧
    getNumberHover fr t = "**`" ++ t ++ "`** (Float)\n\nFloating-point number: " ++ fr t := by
  refine ⟨?_, ?_, ?_, ?_⟩
  · intro hle
    refine ⟨?_, ofBase_toBaseDigits 2 n (by omega), ofBase_toBaseDigits 16 n (by omega)⟩
    simp only [getNumberHover, hs, Bool.false_eq_true, if_false, hn]
    rw [if_pos (⟨Int.natCast_nonneg n, by exact_mod_cast hle⟩ : 0 ≤ (n : Int) ∧ (n : Int) ≤ 1000000)]
    simp only [Int.toNat_natCast]
    by_cases hb : n ≤ 255
    · rw [if_pos (show (n : Int) ≤ 255 by exact_mod_cast hb), if_pos hb]
    · rw [if_neg (show ¬ (n : Int) ≤ 255 by exact_mod_cast hb), if_neg hb]
  · intro hgt
    simp only [getNumberHover, hs, Bool.false_eq_true, if_false, hn]
    rw [if_neg (fun hc => absurd (show n ≤ 1000000 by exact_mod_cast hc.2) (by omega))]
    simp [String.append_empty]
  · simp only [getNumberHover, hu, Bool.false_eq_true, if_false, hm]
    rw [if_neg (fun hc => absurd hc.1 (by omega))]
    simp [String.append_empty]
  · simp only [getNumberHover, ht, if_true]

/-- C9, witness. -/
theorem c9_number_hover_witness :
    getNumberHover (fun x => x) "300" =
      ("**`" ++ "300" ++ "`** (Integer)") ++
        ("\n\n**Conversions:**\n- Binary: `" ++ numToString2 300 ++ "`\n- Hex: `0x"
          ++ numToHexUpper 300 ++ "`"
          ++ (if 300 ≤ 255 then "\n- Byte: `;" ++ padStart2 (numToHexUpper 300) ++ "`" else "")) ∧
    ofBaseDigits 2 (toBaseDigits 2 300) = 300 ∧
    getNumberHover (fun x => x) "3.14" =
      "**`" ++ "3.14" ++ "`** (Float)\n\nFloating-point number: " ++ (fun x => x) "3.14" := by
  have h := c9_number_hover (fun x => x) "300" "3.14" "-7" 300 (-7) (by decide) (by decide)
    (by decide) (by decide) (by decide) (by decide)
  exact ⟨(h.1 (by omega)).1, (h.1 (by omega)).2.1, h.2.2.2⟩

/-- C10.  Confirmed.  When the resolved node is an identifier node of
the tree, the textual scan of `findReferences` always matches the
queried occurrence itself, so the result contains its span and is
non-empty, and `executeRename` succeeds; `executeRename` returns null
exactly when the resolved node is absent or not an identifier. -/
theorem c10_references_self (doc : SrcRange → String) (root : SNode) (nodeOpt : Option SNode)
    (newName : String) :
    (∀ n, nodeOpt = some n → n ∈ walkCollect root → n.type = "id" →
      nodeToRange n ∈ findReferences doc root nodeOpt ∧
      findReferences doc root nodeOpt ≠ [] ∧
      executeRename doc root nodeOpt newName ≠ none) ∧
    (nodeOpt = none → executeRename doc root nodeOpt newName = none) ∧
    (∀ n, nodeOpt = some n → n.type ≠ "id" →
      executeRename doc root nodeOpt newName = none) := by
  refine ⟨?_, ?_, ?_⟩
  · intro n h hmem hid; subst h
    have href : nodeToRange n ∈ findReferences doc root (some n) := by
      simp only [findReferences]
      rw [if_pos (show (n.type == "id") = true by simp [hid])]
      exact List.mem_filterMap.mpr ⟨n, hmem, by simp [hid]⟩
    have hne : findReferences doc root (some n) ≠ [] := by
      intro he; rw [he] at href; exact List.not_mem_nil _ href
    refine ⟨href, hne, ?_⟩
    simp only [executeRename]
    rw [if_neg (by simp [List.isEmpty_iff, hne])]
    simp
  · intro h; subst h; rfl
  · intro n h hne; subst h
    simp [executeRename, findReferences, hne]

/-- C10, witness. -/
theorem c10_references_self_witness :
    nodeToRange c10Id ∈ findReferences c10Doc c10Root (some c10Id) ∧
    executeRename c10Doc c10Root (some c10Id) "y" ≠ none ∧
    executeRename c10Doc c10Root (some c10Num) "y" = none := by
  have hmem : c10Id ∈ walkCollect c10Root := by
    rw [show walkCollect c10Root = [c10Root, c10Decl, c10Id, c10Num] from rfl]
    exact List.mem_cons_of_mem _ (List.mem_cons_of_mem _ (List.mem_cons_self _ _))
  have h := c10_references_self c10Doc c10Root (some c10Id) "y"
  have h2 := c10_references_self c10Doc c10Root (some c10Num) "y"
  exact ⟨(h.1 c10Id rfl hmem rfl).1, (h.1 c10Id rfl hmem rfl).2.2,
    h2.2.2 c10Num rfl (by decide)⟩
